import Mathlib

/-!
Verification of the `linux_max6675` Rust crate (`src/lib.rs`) against its
natural-language specification.

The crate reads a 16-bit word from a MAX6675 thermocouple digitizer over a
Linux SPI device and decodes it into a Celsius temperature.  The embedding
below translates `src/lib.rs` into Lean:

* `Max6675Error` mirrors the Rust error enum (`IoError { source }`,
  `OpenCircuitError`, `SpiUninitialized`).  The wrapped `std::io::Error`
  source is modelled by `IoError`, with `unexpectedEof` standing for the
  error `std::io::Read::read_exact` produces on a short read
  (`ErrorKind::UnexpectedEof`) and `osError code` for any error raised by
  the transport itself.
* A `Spidev` handle is modelled by the sequence of outcomes its underlying
  device will produce, one outcome per `read_exact` transaction: either the
  transport delivers some bytes and then end-of-file (`SpiReadOutcome.bytes`,
  a short list models a short read), or it raises an error
  (`SpiReadOutcome.fail`).  Bytes are `Fin 256`, matching Rust's `u8`.
* Stateful Rust methods (`&mut self`) become explicit state passing: each
  returns its Rust result paired with the updated receiver.
* `read_celsius` returns `f64` in Rust.  Every value the function can
  produce is `k * 0.25` with `k ≤ 0x1FFF = 8191`; all such values, and the
  `u16 → f64` cast producing them, are exact in IEEE-754 binary64, so the
  computation is modelled exactly in `ℚ`.
-/

namespace LinuxMax6675

/-- The cause wrapped by `Max6675Error::IoError` (`std::io::Error`):
`unexpectedEof` is the error `read_exact` raises when the device delivers
fewer bytes than requested (`ErrorKind::UnexpectedEof`); `osError code`
is any error raised by the SPI transport (open, configure or read). -/
inductive IoError where
  | unexpectedEof
  | osError (code : Nat)
deriving DecidableEq, Repr

/-- `Max6675Error` from `src/lib.rs`: `IoError { source: std::io::Error }`
(built by the `#[from]` conversion that `?` applies), `OpenCircuitError`,
and `SpiUninitialized`. -/
inductive Max6675Error where
  | ioError (source : IoError)
  | openCircuitError
  | spiUninitialized
deriving DecidableEq, Repr

/-- True exactly on the `ioError` constructor of `Max6675Error` — the
variant that wraps an underlying `std::io::Error`. -/
def Max6675Error.isIoError : Max6675Error → Bool
  | .ioError _ => true
  | _ => false

/-- Outcome of one `read_exact` transaction on the underlying SPI device:
the transport either delivers `data` and then end-of-file (fewer than the
requested bytes models a silent short read), or raises error `e`. -/
inductive SpiReadOutcome where
  | bytes (data : List (Fin 256))
  | fail (e : IoError)
deriving DecidableEq, Repr

/-- A `spidev::Spidev` handle, modelled by the sequence of outcomes its
device will produce, one per `read_exact` call. -/
structure Spidev where
  reads : List SpiReadOutcome
deriving DecidableEq, Repr

/-- `std::io::Read::read_exact` on a `Spidev`, requesting `n` bytes into a
buffer of size `n`: consumes the next transaction outcome; a raised
transport error propagates, fewer than `n` delivered bytes yield the
`UnexpectedEof` error (never a zero-padded success), and otherwise the `n`
bytes fill the buffer.  An exhausted outcome list is immediate end-of-file. -/
def Spidev.read_exact (spi : Spidev) (n : Nat) :
    Except IoError (List (Fin 256)) × Spidev :=
  match spi.reads with
  | [] => (.error .unexpectedEof, ⟨[]⟩)
  | .fail e :: rest => (.error e, ⟨rest⟩)
  | .bytes data :: rest =>
      if data.length < n then (.error .unexpectedEof, ⟨rest⟩)
      else (.ok (data.take n), ⟨rest⟩)

/-- `u16::from_be_bytes([b0, b1])`: the big-endian 16-bit value
`b0 * 256 + b1`.  At its only call site the list has length exactly 2
(Rust's buffer is `[u8; 2]`). -/
def u16_from_be_bytes (buf : List (Fin 256)) : Nat :=
  match buf with
  | [b0, b1] => b0.val * 256 + b1.val
  | _ => 0

/-- The struct `Max6675 { pub spi: Option<Spidev> }`. -/
structure Max6675 where
  spi : Option Spidev
deriving DecidableEq, Repr

/-- `Max6675::new()`: constructs `Self { spi: None }`. -/
def Max6675.new : Max6675 := { spi := none }

/-- The `SpidevOptions` built inside `Max6675::connect`. -/
structure SpidevOptions where
  bits_per_word : Nat
  max_speed_hz : Nat
  mode : Nat
deriving DecidableEq, Repr

/-- The environment `connect` runs against: the outcome of
`Spidev::open(path)` for each path, and of `spi.configure(&options)` on the
freshly opened handle (`configure` may update the handle; on success the
model returns the configured handle). -/
structure ConnectEnv where
  openPath : String → Except IoError Spidev
  configure : Spidev → SpidevOptions → Except IoError Spidev

/-- `Max6675::connect(&mut self, spi_path)`: opens the SPI path, configures
it with 8 bits per word, 1 MHz, SPI mode 1, and only then stores the handle
in `self.spi`; either failure makes `?` return the converted `IoError`
before the assignment, leaving `self.spi` untouched.  Returns the updated
`self` paired with the Rust result (`Ok(&mut self)` becomes `.ok ()`). -/
def Max6675.connect (m : Max6675) (env : ConnectEnv) (spi_path : String) :
    Max6675 × Except Max6675Error Unit :=
  match env.openPath spi_path with
  | .error e => (m, .error (.ioError e))
  | .ok spi =>
      let options : SpidevOptions :=
        { bits_per_word := 8, max_speed_hz := 1000000, mode := 1 }
      match env.configure spi options with
      | .error e => (m, .error (.ioError e))
      | .ok spi' => ({ m with spi := some spi' }, .ok ())

/-- `Max6675::is_initialized(&mut self)`: `self.spi.is_some()`. -/
def Max6675.is_initialized (m : Max6675) : Bool :=
  m.spi.isSome

/-- `Max6675::read_bytes(&mut self)`: fails with `SpiUninitialized` when
`self.spi` is `None`; otherwise performs one `read_exact` of 2 bytes
(a raised `io::Error` converts to `Max6675Error::IoError` via `?`) and on
success returns `u16::from_be_bytes(buf)`. -/
def Max6675.read_bytes (m : Max6675) : Except Max6675Error Nat × Max6675 :=
  match m.spi with
  | none => (.error .spiUninitialized, m)
  | some spi =>
      match spi.read_exact 2 with
      | (.error e, spi') => (.error (.ioError e), { m with spi := some spi' })
      | (.ok buf, spi') => (.ok (u16_from_be_bytes buf), { m with spi := some spi' })

/-- The open-circuit test applied to a raw word in both `is_open` and
`read_celsius`: `(bytes & 0x04) != 0`, i.e. bit D2 of the word. -/
def is_open_circuit (w : Nat) : Bool :=
  (w &&& 0x04) != 0

/-- The Celsius decoding computed by `read_celsius` on a raw word:
`((0x1FFF & (bytes >> 3)) as f64) * 0.25`, modelled exactly in `ℚ`
(every reachable value is a multiple of 0.25 below 2048, exact in f64). -/
def decode_celsius (w : Nat) : ℚ :=
  ((0x1FFF &&& (w >>> 3) : Nat) : ℚ) * 0.25

/-- The decoding prescribed by the spec's words, for comparison with
`decode_celsius`: "`decode_celsius(w) == ((w >> 3) & 0x0FFF) * 0.25`",
using the precise 12-bit mask `0x0FFF`. -/
def spec_decode_celsius (w : Nat) : ℚ :=
  (((w >>> 3) &&& 0x0FFF : Nat) : ℚ) * 0.25

/-- `Max6675::is_open(&mut self)`: reads a word via `read_bytes` (errors
propagate) and returns whether bit D2 is high (`(bytes & 0x04) != 0`). -/
def Max6675.is_open (m : Max6675) : Except Max6675Error Bool × Max6675 :=
  match m.read_bytes with
  | (.error e, m') => (.error e, m')
  | (.ok bytes, m') => (.ok (is_open_circuit bytes), m')

/-- `Max6675::read_celsius(&mut self)`: reads a word via `read_bytes`
(errors propagate); if `(bytes & 0x04) != 0` the `?` on the mapped bool
returns `Err(OpenCircuitError)`; otherwise returns
`((0x1FFF & (bytes >> 3)) as f64) * 0.25`. -/
def Max6675.read_celsius (m : Max6675) : Except Max6675Error ℚ × Max6675 :=
  match m.read_bytes with
  | (.error e, m') => (.error e, m')
  | (.ok bytes, m') =>
      if is_open_circuit bytes then (.error .openCircuitError, m')
      else (.ok (decode_celsius bytes), m')

/-! Helper lemmas shared by the claim theorems. -/

/-- One `read_exact` call consumes exactly one transaction outcome. -/
theorem read_exact_state (spi : Spidev) (n : Nat) :
    (spi.read_exact n).2 = ⟨spi.reads.drop 1⟩ := by
  rcases spi with ⟨_ | ⟨o, rest⟩⟩
  · rfl
  · cases o with
    | bytes data =>
        simp only [Spidev.read_exact]
        split <;> rfl
    | fail e => rfl

/-- One `read_bytes` call on a connected device consumes exactly one
transaction outcome of the stored handle. -/
theorem read_bytes_state (m : Max6675) (s : Spidev) (h : m.spi = some s) :
    (m.read_bytes).2 = { spi := some ⟨s.reads.drop 1⟩ } := by
  have hs := read_exact_state s 2
  rcases hr : s.read_exact 2 with ⟨res, spi'⟩
  rw [hr] at hs
  have hs2 : spi' = ⟨s.reads.drop 1⟩ := hs
  subst hs2
  unfold Max6675.read_bytes
  rw [h]
  cases res <;> simp [hr]

/-- All state change of `is_open` comes from its single `read_bytes` call. -/
theorem is_open_state (m : Max6675) : (m.is_open).2 = (m.read_bytes).2 := by
  unfold Max6675.is_open
  rcases h : m.read_bytes with ⟨res, m'⟩
  cases res <;> rfl

/-- All state change of `read_celsius` comes from its single `read_bytes`
call. -/
theorem read_celsius_state (m : Max6675) :
    (m.read_celsius).2 = (m.read_bytes).2 := by
  unfold Max6675.read_celsius
  rcases h : m.read_bytes with ⟨res, m'⟩
  cases res with
  | error e => rfl
  | ok bytes =>
      simp only
      split <;> rfl

/-- Big-endian recombination: for a low byte below 256, shift-or equals the
arithmetic form `b0 * 256 + b1`. -/
theorem shiftLeft_or_byte (b0 b1 : Nat) (h : b1 < 256) :
    (b0 <<< 8) ||| b1 = b0 * 256 + b1 := by
  have h2 : b1 < 2 ^ 8 := h
  rw [Nat.shiftLeft_eq, Nat.mul_comm b0 (2 ^ 8)]
  exact (Nat.mul_add_lt_is_or h2 b0).symm

/-- C2: `read_celsius` reads exactly one raw word (it consumes exactly one
transaction of the stored handle); if that word has bit D2 set it fails with
`OpenCircuitError` and returns no numeric value, and if bit D2 is clear it
returns the Celsius decoding of that same word. -/
theorem read_celsius_reads_one_word_and_faults (m : Max6675) (w : Nat)
    (m' : Max6675) (h : m.read_bytes = (.ok w, m')) :
    (∀ s, m.spi = some s → ((m.read_celsius).2).spi = some ⟨s.reads.drop 1⟩) ∧
    (w &&& 0x0004 ≠ 0 → m.read_celsius = (.error .openCircuitError, m')) ∧
    (w &&& 0x0004 = 0 → m.read_celsius = (.ok (decode_celsius w), m')) := by
  refine ⟨?_, ?_, ?_⟩
  · intro s hs
    rw [read_celsius_state, read_bytes_state m s hs]
  · intro hw
    unfold Max6675.read_celsius
    rw [h]
    simp [is_open_circuit, hw]
  · intro hw
    unfold Max6675.read_celsius
    rw [h]
    simp [is_open_circuit, hw]

/-- Witness for C2 at the spec's fault scenario: the word `0x0004` (bytes
`0x00 0x04`) has bit D2 set and `read_celsius` fails with the open-circuit
error. -/
theorem read_celsius_reads_one_word_and_faults_witness :
    Max6675.read_bytes { spi := some ⟨[.bytes [0x00, 0x04]]⟩ }
        = (.ok 4, { spi := some ⟨[]⟩ }) ∧
    (4 : Nat) &&& 0x0004 ≠ 0 ∧
    Max6675.read_celsius { spi := some ⟨[.bytes [0x00, 0x04]]⟩ }
        = (.error .openCircuitError, { spi := some ⟨[]⟩ }) :=
  ⟨rfl, by decide,
    (read_celsius_reads_one_word_and_faults
      { spi := some ⟨[.bytes [0x00, 0x04]]⟩ } 4
      { spi := some ⟨[]⟩ } rfl).2.1 (by decide)⟩

/-- C4: the open-circuit test is true exactly when bit D2 (`0x0004`) of the
word is set, and `is_open` returns exactly this test applied to the word it
read. -/
theorem is_open_circuit_bit2 (w : Nat) :
    (is_open_circuit w = true ↔ w &&& 0x0004 ≠ 0) ∧
    (is_open_circuit w = false ↔ w &&& 0x0004 = 0) ∧
    (∀ m m', Max6675.read_bytes m = (.ok w, m') →
      m.is_open = (.ok (is_open_circuit w), m')) := by
  refine ⟨?_, ?_, ?_⟩
  · simp [is_open_circuit]
  · simp [is_open_circuit]
  · intro m m' h
    unfold Max6675.is_open
    rw [h]

/-- Witness for C4 at the word `0x0004`: the test is true there, and
`is_open` on a device delivering bytes `0x00 0x04` returns it. -/
theorem is_open_circuit_bit2_witness :
    is_open_circuit 0x0004 = true ∧
    Max6675.is_open { spi := some ⟨[.bytes [0x00, 0x04]]⟩ }
        = (.ok (is_open_circuit 4), { spi := some ⟨[]⟩ }) :=
  ⟨(is_open_circuit_bit2 4).1.mpr (by decide),
    (is_open_circuit_bit2 4).2.2 _ _ rfl⟩

/-- C5: when the internal handle is `None`, `read_bytes` — and with it
`is_open` and `read_celsius` — returns `SpiUninitialized`, and the state is
returned untouched: no transaction of any channel is consumed. -/
theorem unconnected_read_fails (m : Max6675) (h : m.spi = none) :
    m.read_bytes = (.error .spiUninitialized, m) ∧
    m.is_open = (.error .spiUninitialized, m) ∧
    m.read_celsius = (.error .spiUninitialized, m) := by
  have hb : m.read_bytes = (.error .spiUninitialized, m) := by
    unfold Max6675.read_bytes
    rw [h]
  refine ⟨hb, ?_, ?_⟩
  · unfold Max6675.is_open
    rw [hb]
  · unfold Max6675.read_celsius
    rw [hb]

/-- Witness for C5 on a freshly constructed `Max6675::new()`. -/
theorem unconnected_read_fails_witness :
    Max6675.new.spi = none ∧
    Max6675.new.read_celsius = (.error .spiUninitialized, Max6675.new) :=
  ⟨rfl, (unconnected_read_fails Max6675.new rfl).2.2⟩

/-- C6: an error raised by the underlying channel read propagates to the
caller of `read_bytes` and `read_celsius` as `IoError` carrying that very
cause. -/
theorem transport_error_propagates (m : Max6675) (s : Spidev) (e : IoError)
    (rest : List SpiReadOutcome) (hspi : m.spi = some s)
    (hreads : s.reads = .fail e :: rest) :
    (m.read_bytes).1 = .error (.ioError e) ∧
    (m.read_celsius).1 = .error (.ioError e) := by
  have hb : (m.read_bytes).1 = .error (.ioError e) := by
    simp [Max6675.read_bytes, Spidev.read_exact, hspi, hreads]
  refine ⟨hb, ?_⟩
  unfold Max6675.read_celsius
  rcases hr : m.read_bytes with ⟨res, m'⟩
  rw [hr] at hb
  have hb2 : res = .error (.ioError e) := hb
  subst hb2
  rfl

/-- Witness for C6: an `EACCES`-style transport error (os code 13) raised
by the device surfaces unchanged from `read_celsius`. -/
theorem transport_error_propagates_witness :
    (Max6675.read_celsius { spi := some ⟨[.fail (.osError 13)]⟩ }).1
        = .error (.ioError (.osError 13)) :=
  (transport_error_propagates _ ⟨[.fail (.osError 13)]⟩ (.osError 13) []
    rfl rfl).2

/-- C7: on a successful read of exactly two bytes `b0 b1`, `read_bytes`
returns the big-endian 16-bit value `(b0 <<< 8) ||| b1`, the
most-significant byte first, which equals `b0 * 256 + b1`. -/
theorem read_bytes_big_endian (m : Max6675) (s : Spidev) (b0 b1 : Fin 256)
    (rest : List SpiReadOutcome) (hspi : m.spi = some s)
    (hreads : s.reads = .bytes [b0, b1] :: rest) :
    (m.read_bytes).1 = .ok ((b0.val <<< 8) ||| b1.val) ∧
    (b0.val <<< 8) ||| b1.val = b0.val * 256 + b1.val := by
  have hor := shiftLeft_or_byte b0.val b1.val b1.isLt
  refine ⟨?_, hor⟩
  simp [Max6675.read_bytes, Spidev.read_exact, hspi, hreads,
    u16_from_be_bytes, hor]

/-- Witness for C7 at bytes `0xAB 0xCD`, whose big-endian recombination is
`0xABCD`. -/
theorem read_bytes_big_endian_witness :
    (Max6675.read_bytes { spi := some ⟨[.bytes [0xAB, 0xCD]]⟩ }).1
        = .ok (((0xAB : Fin 256).val <<< 8) ||| (0xCD : Fin 256).val) :=
  (read_bytes_big_endian _ ⟨[.bytes [0xAB, 0xCD]]⟩ 0xAB 0xCD [] rfl rfl).1

/-- C1 counterexample: at the word `0x8000` (bit D15 set, delivered as
bytes `0x80 0x00`), `read_celsius` succeeds with the code's `0x1FFF`-masked
decoding, which differs from the spec's `((w >> 3) & 0x0FFF) * 0.25` (it is
1024.0, not 0.0) and exceeds the claimed 1023.75 bound. -/
theorem decode_celsius_mask_counterexample :
    (Max6675.read_celsius { spi := some ⟨[.bytes [0x80, 0x00]]⟩ }).1
        = .ok (decode_celsius 0x8000) ∧
    decode_celsius 0x8000 ≠ spec_decode_celsius 0x8000 ∧
    ¬ decode_celsius 0x8000 ≤ (1023.75 : ℚ) := by
  refine ⟨rfl, ?_, ?_⟩
  · unfold decode_celsius spec_decode_celsius
    rw [show (0x1FFF : Nat) &&& (0x8000 >>> 3) = 4096 from by decide]
    rw [show ((0x8000 : Nat) >>> 3) &&& 0x0FFF = 0 from by decide]
    norm_num
  · unfold decode_celsius
    rw [show (0x1FFF : Nat) &&& (0x8000 >>> 3) = 4096 from by decide]
    norm_num

/-- C1 as amended: the decoding of `read_celsius` is
`((w >> 3) & 0x1FFF) * 0.25`, always between 0.0 and 2047.75; it agrees
with the spec's `((w >> 3) & 0x0FFF) * 0.25` and stays below 1023.75
whenever bit D15 is clear (`w < 0x8000`), which the datasheet guarantees
for every word the chip produces. -/
theorem decode_celsius_characterization (w : Nat) :
    decode_celsius w = (((w >>> 3) &&& 0x1FFF : Nat) : ℚ) * 0.25 ∧
    0 ≤ decode_celsius w ∧
    decode_celsius w ≤ 2047.75 ∧
    (w < 0x8000 →
      decode_celsius w = spec_decode_celsius w ∧
      decode_celsius w ≤ 1023.75) := by
  have hcomm : (0x1FFF : Nat) &&& (w >>> 3) = (w >>> 3) &&& 0x1FFF :=
    Nat.and_comm _ _
  have hle : (0x1FFF : Nat) &&& (w >>> 3) ≤ 8191 := Nat.and_le_left
  refine ⟨?_, ?_, ?_, ?_⟩
  · unfold decode_celsius
    rw [hcomm]
  · unfold decode_celsius
    exact mul_nonneg (Nat.cast_nonneg _) (by norm_num)
  · unfold decode_celsius
    have hq : ((0x1FFF &&& (w >>> 3) : Nat) : ℚ) ≤ 8191 := by
      exact_mod_cast hle
    norm_num
    linarith
  · intro hw
    have hdiv : w >>> 3 < 4096 := by
      rw [Nat.shiftRight_eq_div_pow]
      have h8 : (2 : Nat) ^ 3 = 8 := by norm_num
      rw [h8]
      omega
    have h13 : (w >>> 3) &&& 0x1FFF = w >>> 3 := by
      rw [show (0x1FFF : Nat) = 2 ^ 13 - 1 from by norm_num]
      exact Nat.and_pow_two_sub_one_of_lt_two_pow
        (hdiv.trans_le (by norm_num))
    have h12 : (w >>> 3) &&& 0x0FFF = w >>> 3 := by
      rw [show (0x0FFF : Nat) = 2 ^ 12 - 1 from by norm_num]
      exact Nat.and_pow_two_sub_one_of_lt_two_pow
        (hdiv.trans_le (by norm_num))
    constructor
    · unfold decode_celsius spec_decode_celsius
      rw [hcomm, h13, h12]
    · unfold decode_celsius
      rw [hcomm, h13]
      have hq : ((w >>> 3 : Nat) : ℚ) ≤ 4095 := by
        exact_mod_cast Nat.le_of_lt_succ hdiv
      norm_num
      linarith

/-- Witness for the amended C1 at the spec's round-trip word `0x0190`
(bit D15 clear): code and spec decodings agree and respect the bound. -/
theorem decode_celsius_characterization_witness :
    (0x0190 : Nat) < 0x8000 ∧
    (decode_celsius 0x0190 = spec_decode_celsius 0x0190 ∧
      decode_celsius 0x0190 ≤ 1023.75) :=
  ⟨by decide, (decode_celsius_characterization 0x0190).2.2.2 (by decide)⟩

/-- C3 counterexample: a channel delivering a single byte makes
`read_bytes` fail with `IoError` wrapping the unexpected-end-of-file
cause — the very same `Max6675Error` variant (`IoError`, witnessed by
`isIoError`) that a genuine transport failure produces — so the no-data
failure is not a distinct error kind of `Max6675Error`. -/
theorem short_read_error_kind_counterexample :
    (Max6675.read_bytes { spi := some ⟨[.bytes [0x01]]⟩ }).1
        = .error (.ioError .unexpectedEof) ∧
    (Max6675.read_celsius { spi := some ⟨[.bytes [0x01]]⟩ }).1
        = .error (.ioError .unexpectedEof) ∧
    (Max6675.read_bytes { spi := some ⟨[.fail (.osError 5)]⟩ }).1
        = .error (.ioError (.osError 5)) ∧
    Max6675Error.isIoError (.ioError .unexpectedEof)
        = Max6675Error.isIoError (.ioError (.osError 5)) :=
  ⟨rfl, rfl, rfl, rfl⟩

/-- C3 as amended: a channel read yielding fewer than 2 bytes without its
own error makes `read_bytes` and `read_celsius` fail — never succeed or
zero-pad — with `IoError` wrapping the unexpected-end-of-file cause; this
is the same `Max6675Error` variant as a transport error, the no-data
condition being distinguished only by the wrapped io cause. -/
theorem short_read_fails_with_unexpected_eof (m : Max6675) (s : Spidev)
    (data : List (Fin 256)) (rest : List SpiReadOutcome)
    (hspi : m.spi = some s) (hreads : s.reads = .bytes data :: rest)
    (hlen : data.length < 2) :
    (m.read_bytes).1 = .error (.ioError .unexpectedEof) ∧
    (m.read_celsius).1 = .error (.ioError .unexpectedEof) ∧
    Max6675Error.isIoError (.ioError .unexpectedEof) = true := by
  have hb : (m.read_bytes).1 = .error (.ioError .unexpectedEof) := by
    simp [Max6675.read_bytes, Spidev.read_exact, hspi, hreads, hlen]
  refine ⟨hb, ?_, rfl⟩
  unfold Max6675.read_celsius
  rcases hr : m.read_bytes with ⟨res, m'⟩
  rw [hr] at hb
  have hb2 : res = .error (.ioError .unexpectedEof) := hb
  subst hb2
  rfl

/-- Witness for the amended C3: a channel delivering exactly one byte. -/
theorem short_read_fails_with_unexpected_eof_witness :
    ([0x01] : List (Fin 256)).length < 2 ∧
    (Max6675.read_celsius { spi := some ⟨[.bytes [0x01]]⟩ }).1
        = .error (.ioError .unexpectedEof) :=
  ⟨by decide,
    (short_read_fails_with_unexpected_eof { spi := some ⟨[.bytes [0x01]]⟩ }
      ⟨[.bytes [0x01]]⟩ [0x01] [] rfl rfl (by decide)).2.1⟩

/-- C8: the word decoders are pure and deterministic — equal input words
give equal outputs for both `decode_celsius` and `is_open_circuit` — and
applying them has no observable effect: the entire state change of
`is_open` and `read_celsius` is that of their single `read_bytes` call. -/
theorem decoders_pure (w w' : Nat) (m : Max6675) (h : w = w') :
    decode_celsius w = decode_celsius w' ∧
    is_open_circuit w = is_open_circuit w' ∧
    (m.is_open).2 = (m.read_bytes).2 ∧
    (m.read_celsius).2 = (m.read_bytes).2 := by
  subst h
  exact ⟨rfl, rfl, is_open_state m, read_celsius_state m⟩

/-- Witness for C8 at the word `0x0190` and a fresh device value. -/
theorem decoders_pure_witness :
    decode_celsius 0x0190 = decode_celsius 0x0190 ∧
    is_open_circuit 0x0190 = is_open_circuit 0x0190 ∧
    (Max6675.new.is_open).2 = (Max6675.new.read_bytes).2 ∧
    (Max6675.new.read_celsius).2 = (Max6675.new.read_bytes).2 :=
  decoders_pure 0x0190 0x0190 Max6675.new rfl

/-- C9: `connect` stores a handle only after both the open of the device
path and its configuration succeed; if either step fails it returns the
transport error (`IoError`) and leaves `self.spi` exactly as it was. -/
theorem connect_atomic (m : Max6675) (env : ConnectEnv) (path : String) :
    (∀ e, env.openPath path = .error e →
      m.connect env path = (m, .error (.ioError e))) ∧
    (∀ spi e, env.openPath path = .ok spi →
      env.configure spi ⟨8, 1000000, 1⟩ = .error e →
      m.connect env path = (m, .error (.ioError e))) ∧
    (∀ spi spi', env.openPath path = .ok spi →
      env.configure spi ⟨8, 1000000, 1⟩ = .ok spi' →
      m.connect env path = ({ m with spi := some spi' }, .ok ())) := by
  refine ⟨?_, ?_, ?_⟩
  · intro e he
    simp [Max6675.connect, he]
  · intro spi e ho hc
    simp [Max6675.connect, ho, hc]
  · intro spi spi' ho hc
    simp [Max6675.connect, ho, hc]

/-- Witness for C9: a fully successful open-and-configure environment
stores the configured handle. -/
theorem connect_atomic_witness :
    Max6675.connect Max6675.new
        ⟨fun _ => .ok ⟨[]⟩, fun s _ => .ok s⟩ "/dev/spidev0.0"
      = ({ spi := some ⟨[]⟩ }, .ok ()) :=
  (connect_atomic Max6675.new ⟨fun _ => .ok ⟨[]⟩, fun s _ => .ok s⟩
    "/dev/spidev0.0").2.2 ⟨[]⟩ ⟨[]⟩ rfl rfl

/-- C10: `new()` constructs the unconnected state (`spi = None`), on which
`is_initialized` is false; `is_initialized` is true exactly when a handle
is stored, and in particular after any successful `connect`. -/
theorem new_unconnected_and_is_initialized (m : Max6675) (env : ConnectEnv)
    (path : String) :
    Max6675.new.spi = none ∧
    Max6675.new.is_initialized = false ∧
    (m.is_initialized = true ↔ ∃ s, m.spi = some s) ∧
    ((m.connect env path).2 = .ok () →
      ((m.connect env path).1).is_initialized = true) := by
  refine ⟨rfl, rfl, ?_, ?_⟩
  · simp [Max6675.is_initialized, Option.isSome_iff_exists]
  · intro hok
    rcases ho : env.openPath path with e | spi
    · simp [Max6675.connect, ho] at hok
    · rcases hc : env.configure spi ⟨8, 1000000, 1⟩ with e | spi'
      · simp [Max6675.connect, ho, hc] at hok
      · simp [Max6675.connect, ho, hc, Max6675.is_initialized]

/-- Witness for C10: a successful `connect` out of the fresh state leaves
`is_initialized` true. -/
theorem new_unconnected_and_is_initialized_witness :
    (Max6675.connect Max6675.new
        ⟨fun _ => .ok ⟨[]⟩, fun s _ => .ok s⟩ "/dev/spidev1.0").2 = .ok () ∧
    ((Max6675.connect Max6675.new
        ⟨fun _ => .ok ⟨[]⟩, fun s _ => .ok s⟩ "/dev/spidev1.0").1).is_initialized
      = true :=
  ⟨rfl, (new_unconnected_and_is_initialized Max6675.new
      ⟨fun _ => .ok ⟨[]⟩, fun s _ => .ok s⟩ "/dev/spidev1.0").2.2.2 rfl⟩

end LinuxMax6675
